import Mathlib

/-!
Verification of the Bindora frontend (Next.js drug-discovery dashboard) against
its specification.  The TypeScript sources under frontend/src are embedded
shallowly: pure request-building and rendering logic become Lean functions,
fetch outcomes become an explicit FetchResult type, and fallible API wrappers
return Except.  Floating-point fields of the data model (binding score,
molecular weight, logP, TPSA) are modelled as rationals; the claims about them
only compare values, so no floating-point rounding behaviour is involved.
The backend search service is not present in the source tree (only TODO
placeholders and documentation), so the parts of it that claims depend on are
modelled from the spec and marked as such in their doc comments.
-/

namespace Bindora

/-- Drug record as declared in frontend/src/types (interface Drug):
identifier, optional name, SMILES string, binding score, molecular weight,
logP, hydrogen-bond donor and acceptor counts, TPSA, drug-likeness flag and
clinical phase. -/
structure Drug where
  chembl_id : String
  name : Option String
  smiles : String
  binding_score : ℚ
  molecular_weight : ℚ
  logp : ℚ
  hbd : Nat
  hba : Nat
  tpsa : ℚ
  is_drug_like : Bool
  clinical_phase : Nat
  deriving DecidableEq, Repr

/-- DrugDetails as declared in frontend/src/types: a Drug together with an
optional description, optional InChI key and a list of similar-drug ids
(the open-ended properties map and trial list are not needed by any claim
and are omitted from the embedding). -/
structure DrugDetails where
  chembl_id : String
  name : Option String
  smiles : String
  binding_score : ℚ
  molecular_weight : ℚ
  logp : ℚ
  hbd : Nat
  hba : Nat
  tpsa : ℚ
  is_drug_like : Bool
  clinical_phase : Nat
  description : Option String
  inchi_key : Option String
  similar_drugs : List String
  deriving DecidableEq, Repr

/-- SearchParams as declared in frontend/src/types.  The queryType field is a
String here because the TypeScript union type QueryType is erased at runtime:
the results page obtains this value from the URL with an unchecked cast, so at
runtime any string can inhabit it. -/
structure SearchParams where
  query : String
  queryType : String
  maxResults : Nat
  deriving DecidableEq, Repr

/-- Body of the POST /api/search request as built by searchDrugs in
frontend/src/lib/api.ts (interface SearchRequest). -/
structure SearchRequest where
  query : String
  query_type : String
  max_results : Nat
  deriving DecidableEq, Repr

/-- SearchResponse as declared in frontend/src/types. -/
structure SearchResponse where
  results : List Drug
  total : Nat
  query : String
  query_type : String
  deriving DecidableEq, Repr

/-- Platform statistics returned by GET /api/stats, as typed in getStats. -/
structure PlatformStats where
  total_drugs : Nat
  total_targets : Nat
  predictions_made : Nat
  deriving DecidableEq, Repr

/-- Successful response type of healthCheck in frontend/src/lib/api.ts: the
declared TypeScript return type has exactly the fields status, message and
version. -/
structure HealthResponse where
  status : String
  message : String
  version : String
  deriving DecidableEq, Repr

/-- The runtime values allowed by the QueryType union in frontend/src/types
are exactly the strings disease, gene and sequence. -/
def isValidQueryType (s : String) : Bool :=
  s == ("disease") || s == ("gene") || s == ("sequence")

/-- JavaScript truthiness of a nullable string: null and the empty string are
falsy, every other string is truthy. -/
def jsTruthy : Option String → Bool
  | none => false
  | some s => !(s == (""))

/-- JavaScript s1 OR s2 on an optional string field read from a parsed JSON
object: an absent field (undefined) and the empty string are falsy and give
the fallback, any other string is returned as is. -/
def jsStringOrElse (field : Option String) (fallback : String) : String :=
  match field with
  | none => fallback
  | some s => if s == ("") then fallback else s

/-- Parsed JSON body of a non-OK HTTP response: the detail field may be
present (a string) or absent. -/
structure ParsedError where
  detail : Option String
  deriving DecidableEq, Repr

/-- Outcome of a fetch call as observed by the api.ts wrappers: an OK response
carrying a value of the expected type, a non-OK response whose body parses to
a JSON object (some ParsedError) or fails to parse (none), or a rejected
fetch promise carrying an error message. -/
inductive FetchResult (α : Type) where
  | ok (value : α)
  | httpError (body : Option ParsedError)
  | networkFailure (msg : String)
  deriving DecidableEq, Repr

/-- Error message thrown by the non-OK branches of searchDrugs and
getDrugDetails: response.json() with a catch handler substituting a body whose
detail field is the fallback, followed by error.detail OR fallback. -/
def errorMessage (body : Option ParsedError) (fallback : String) : String :=
  match body with
  | none => jsStringOrElse (some fallback) fallback
  | some e => jsStringOrElse e.detail fallback

/-- Request built by searchDrugs in frontend/src/lib/api.ts from its
SearchParams argument: each field is forwarded unchanged. -/
def buildSearchRequest (p : SearchParams) : SearchRequest :=
  { query := p.query, query_type := p.queryType, max_results := p.maxResults }

/-- Response handling of searchDrugs: an OK response is returned as parsed, a
non-OK response raises Error(errorMessage body) with fallback Search failed,
and a rejected fetch propagates. -/
def searchDrugsResult (r : FetchResult SearchResponse) : Except String SearchResponse :=
  match r with
  | .ok v => .ok v
  | .httpError body => .error (errorMessage body ("Search failed"))
  | .networkFailure m => .error m

/-- Response handling of getDrugDetails in frontend/src/lib/api.ts: an OK
response is returned as parsed, a non-OK response raises
Error(errorMessage body) with fallback Drug not found, and a rejected fetch
propagates. -/
def getDrugDetails (r : FetchResult DrugDetails) : Except String DrugDetails :=
  match r with
  | .ok v => .ok v
  | .httpError body => .error (errorMessage body ("Drug not found"))
  | .networkFailure m => .error m

/-- Response handling of getStats in frontend/src/lib/api.ts: a non-OK
response raises Error with the fixed message Failed to fetch stats. -/
def getStats (r : FetchResult PlatformStats) : Except String PlatformStats :=
  match r with
  | .ok v => .ok v
  | .httpError _ => .error ("Failed to fetch stats")
  | .networkFailure m => .error m

/-- Minimal shape of an HTTP request issued by the api.ts wrappers. -/
structure HttpRequest where
  method : String
  path : String
  deriving DecidableEq, Repr

/-- Request issued by healthCheck in frontend/src/lib/api.ts: a GET of
API_BASE_URL followed by the path slash, with no body. -/
def healthCheckRequest : HttpRequest :=
  { method := ("GET"), path := ("/") }

/-- Response handling of healthCheck: a non-OK response raises Error with the
fixed message Health check failed. -/
def healthCheck (r : FetchResult HealthResponse) : Except String HealthResponse :=
  match r with
  | .ok v => .ok v
  | .httpError _ => .error ("Health check failed")
  | .networkFailure m => .error m

/-- JavaScript String.prototype.trim as used by handleSubmit: whitespace is
stripped from both ends of the string (expressed on the character list of the
string). -/
def jsTrim (s : String) : String :=
  ⟨(((s.data.dropWhile Char.isWhitespace).reverse.dropWhile Char.isWhitespace).reverse)⟩

/-- Outcome of SearchForm.handleSubmit in the search-form component: a
validation error shown in the form, a navigation to the results page with q
and type URL parameters, or a call of the onSearch callback when one was
supplied. -/
inductive SubmitOutcome where
  | validationError (msg : String)
  | navigate (q : String) (queryType : String)
  | callOnSearch (q : String) (queryType : String)
  deriving DecidableEq, Repr

/-- SearchForm.handleSubmit: if the trimmed query is empty (JavaScript NOT of
query.trim()) the form sets a validation error and returns; otherwise it
either calls the onSearch callback or navigates to /results with the query
and the selected tab value as URL parameters. -/
def handleSubmit (query : String) (queryType : String) (hasOnSearch : Bool) : SubmitOutcome :=
  if jsTrim query == ("") then
    .validationError ("Please enter a search query")
  else if hasOnSearch then
    .callOnSearch query queryType
  else
    .navigate query queryType

/-- Values of the three TabsTrigger elements of the SearchForm: the Tabs
component only ever reports one of these as the selected queryType. -/
def searchFormTabValues : List String :=
  [("gene"), ("disease"), ("sequence")]

/-- Effect of the results-page useEffect in
frontend/src/app/results/page.tsx: it reads the q and type URL parameters
(null when absent) and performs a search exactly when both are truthy, with
maxResults fixed at 20; the type string is cast to QueryType without any
runtime check. -/
def resultsPageSearch (q : Option String) (t : Option String) : Option SearchParams :=
  if jsTruthy q && jsTruthy t then
    some { query := q.getD (""), queryType := t.getD (""), maxResults := 20 }
  else
    none

/-- Search request that the results page sends for given URL parameters: the
SearchParams produced by the useEffect, passed through searchDrugs request
building. -/
def resultsPageRequest (q : Option String) (t : Option String) : Option SearchRequest :=
  (resultsPageSearch q t).map buildSearchRequest

/-- Data displayed by one DrugCard in
frontend/src/components/results/DrugCard.tsx: the title, the binding score,
whether the green drug-like badge is rendered (it is rendered exactly when
is_drug_like holds) and the clinical phase. -/
structure DrugCardView where
  title : String
  bindingScore : ℚ
  showsDrugLikeBadge : Bool
  clinicalPhase : Nat
  deriving DecidableEq, Repr

/-- Rendering of a single drug by DrugCard: the name falls back to Unknown
Drug, the score is displayed as is, and the drug-like badge is shown if and
only if the is_drug_like flag of the record is set. -/
def mkDrugCard (d : Drug) : DrugCardView :=
  { title := d.name.getD ("Unknown Drug")
  , bindingScore := d.binding_score
  , showsDrugLikeBadge := d.is_drug_like
  , clinicalPhase := d.clinical_phase }

/-- Rendering of the DrugGrid component: while loading it shows skeletons (no
cards), otherwise it maps each drug of the list, in order, to a DrugCard. -/
def drugGrid (isLoading : Bool) (drugs : List Drug) : List DrugCardView :=
  if isLoading then [] else drugs.map mkDrugCard

/-- State of the DrugDetailModal after loadDrugDetails settles: either the
details were stored, or the caught error message was stored; loading is over
in both cases. -/
structure ModalState where
  drug : Option DrugDetails
  errorShown : Option String
  isLoading : Bool
  deriving DecidableEq, Repr

/-- loadDrugDetails in the DrugDetailModal component: on success the details
are stored, on a thrown Error its message is caught and stored in the error
state, which the modal then renders instead of the detail tabs. -/
def loadDrugDetails (r : Except String DrugDetails) : ModalState :=
  match r with
  | .ok d => { drug := some d, errorShown := none, isLoading := false }
  | .error msg => { drug := none, errorShown := some msg, isLoading := false }

/-- Lipinski rule panel of the Properties tab of DrugDetailModal: the four
RuleCheck rows are passed exactly when molecular weight is below 500, logP is
below 5, donors are at most 5 and acceptors are at most 10. -/
def modalRulePanel (d : DrugDetails) : Bool × Bool × Bool × Bool :=
  ( decide (d.molecular_weight < 500)
  , decide (d.logp < 5)
  , decide (d.hbd ≤ 5)
  , decide (d.hba ≤ 10) )

/-- Drug-likeness badge of the Overview tab of DrugDetailModal: it shows
Passes Lipinski exactly when the is_drug_like flag of the record is set. -/
def modalDrugLikeBadge (d : DrugDetails) : Bool :=
  d.is_drug_like

/-- Default statistics hardcoded in the useState initialiser of HomePage. -/
def defaultHomeStats : PlatformStats :=
  { total_drugs := 3000, total_targets := 20000, predictions_made := 150000 }

/-- State of the home page displayed to the user. -/
structure HomePageView where
  stats : PlatformStats
  errorShown : Bool
  deriving DecidableEq, Repr

/-- loadStats in HomePage: getStats is awaited inside a try block whose catch
only logs to the console, so on any failure the state keeps the hardcoded
defaults and no error is surfaced; on success the fetched values replace the
defaults. -/
def homePageView (f : FetchResult PlatformStats) : HomePageView :=
  match getStats f with
  | .ok d => { stats := d, errorShown := false }
  | .error _ => { stats := defaultHomeStats, errorShown := false }

/-- Descending-score order used to state sortedness of search results: a
drug precedes another when its binding score is at least as large. -/
def scoreDescOrder (a b : Drug) : Prop :=
  b.binding_score ≤ a.binding_score

instance : DecidableRel scoreDescOrder :=
  fun a b => inferInstanceAs (Decidable (b.binding_score ≤ a.binding_score))

instance : IsTotal Drug scoreDescOrder :=
  ⟨fun a b => le_total b.binding_score a.binding_score⟩

instance : IsTrans Drug scoreDescOrder :=
  ⟨fun _ _ _ hab hbc => le_trans hbc hab⟩

/-- Modelled from the spec: the backend search service is absent from the
source tree (the repository only ships its documentation and TODO
placeholders).  Per the search contract of the spec, the service returns the
candidate drugs ranked by descending binding score, truncated to the
requested max_results, with total the size of the returned set and the query
and type echoed back. -/
def specSearch (req : SearchRequest) (pool : List Drug) : SearchResponse :=
  let ranked := (List.insertionSort scoreDescOrder pool).take req.max_results
  { results := ranked, total := ranked.length, query := req.query, query_type := req.query_type }

/-- Modelled from the spec: the placeholder backend currently returns random
binding scores in the 60 to 90 percent range; the sampled randomness is made
explicit as a seed, one fresh draw per candidate. -/
def mockBindingScore (seed : Nat) (i : Nat) : ℚ :=
  ((60 + (seed + i) % 31 : Nat) : ℚ)

/-- Modelled from the spec: the placeholder search pipeline attaches a
randomly drawn binding score to each candidate drug and returns up to
max_results of them; the ranking of the placeholder is likewise not
deterministic in the input alone. -/
def mockSearch (req : SearchRequest) (pool : List Drug) (seed : Nat) : List Drug :=
  (pool.enum.map (fun p => { p.2 with binding_score := mockBindingScore seed p.1 })).take
    req.max_results

/-- Modelled from the spec: the drug-likeness flag is a deterministic
function of molecular weight, lipophilicity and the donor and acceptor
counts, namely the Lipinski rule of five; the backend code computing it is
absent from the source tree. -/
def lipinskiDrugLike (mw : ℚ) (lp : ℚ) (hbd : Nat) (hba : Nat) : Bool :=
  decide (mw < 500) && decide (lp < 5) && decide (hbd ≤ 5) && decide (hba ≤ 10)

/-- State of the results page after performSearch settles. -/
structure ResultsPageState where
  drugs : List Drug
  error : Option String
  isLoading : Bool
  deriving DecidableEq, Repr

/-- performSearch in frontend/src/app/results/page.tsx: on success the state
takes response.results unchanged (no re-sorting), on a caught error the
message is stored and the previously held drugs are kept. -/
def performSearch (prev : List Drug) (r : Except String SearchResponse) : ResultsPageState :=
  match r with
  | .ok resp => { drugs := resp.results, error := none, isLoading := false }
  | .error m => { drugs := prev, error := some m, isLoading := false }

/-- Sample drug record with the values of the Aspirin example of the
repository documentation (fractional fields rounded to integers so that
comparisons evaluate by kernel reduction). -/
def sampleDrug : Drug :=
  { chembl_id := ("CHEMBL25"), name := some ("Aspirin")
  , smiles := ("CC(=O)Oc1ccccc1C(=O)O"), binding_score := 85
  , molecular_weight := 180, logp := 1, hbd := 1, hba := 4, tpsa := 63
  , is_drug_like := true, clinical_phase := 4 }

/-- Sample detail record matching sampleDrug. -/
def sampleDetails : DrugDetails :=
  { chembl_id := ("CHEMBL25"), name := some ("Aspirin")
  , smiles := ("CC(=O)Oc1ccccc1C(=O)O"), binding_score := 85
  , molecular_weight := 180, logp := 1, hbd := 1, hba := 4, tpsa := 63
  , is_drug_like := true, clinical_phase := 4
  , description := none, inchi_key := none, similar_drugs := [] }

/-- Claim C4: a submitted search whose query is empty or consists only of
whitespace is rejected before any external call: handleSubmit sets the
validation error and returns without navigating or invoking the callback,
and the results page performs no search when the q URL parameter is absent
or empty. -/
theorem empty_query_rejected_before_api_call (q : String) (t : String) (cb : Bool)
    (h : jsTrim q = ("")) :
    handleSubmit q t cb = .validationError ("Please enter a search query") ∧
    (∀ t2 : Option String, resultsPageSearch none t2 = none) ∧
    (∀ t2 : Option String, resultsPageSearch (some ("")) t2 = none) := by
  refine ⟨?_, fun t2 => rfl, fun t2 => rfl⟩
  simp [handleSubmit, h]

/-- Witness for claim C4, at a whitespace-only query on the gene tab. -/
theorem empty_query_rejected_before_api_call_witness :
    jsTrim ("   ") = ("") ∧
    (handleSubmit ("   ") ("gene") false = .validationError ("Please enter a search query") ∧
      (∀ t2 : Option String, resultsPageSearch none t2 = none) ∧
      (∀ t2 : Option String, resultsPageSearch (some ("")) t2 = none)) :=
  ⟨by decide, empty_query_rejected_before_api_call ("   ") ("gene") false (by decide)⟩

/-- Claim C8 counterexample: the health-check operation of the frontend does
not request the /health path; healthCheck fetches the API root path. -/
theorem health_check_path_counterexample :
    healthCheckRequest.path = ("/") ∧ healthCheckRequest.path ≠ ("/health") := by
  exact ⟨rfl, by decide⟩

/-- Claim C8 (amended): the health-check operation issues a GET request to
the API root path, its successful response is an object with the fields
status, message and version, and a non-OK response raises the fixed
Health check failed error. -/
theorem health_check_root_path_and_fields (v : HealthResponse) :
    healthCheckRequest.method = ("GET") ∧
    healthCheckRequest.path = ("/") ∧
    healthCheck (.ok v) = .ok { status := v.status, message := v.message, version := v.version } ∧
    (∀ b : Option ParsedError, healthCheck (.httpError b) = .error ("Health check failed")) :=
  ⟨rfl, rfl, rfl, fun _ => rfl⟩

/-- Claim C9: when the platform-statistics fetch returns a non-OK response or
rejects, the home page still shows the hardcoded default counts and surfaces
no error; the displayed statistics equal the server values exactly when
getStats succeeds. -/
theorem stats_fallback_on_failure :
    (∀ b : Option ParsedError, homePageView (.httpError b) =
      { stats := { total_drugs := 3000, total_targets := 20000, predictions_made := 150000 }
      , errorShown := false }) ∧
    (∀ m : String, homePageView (.networkFailure m) =
      { stats := defaultHomeStats, errorShown := false }) ∧
    (∀ d : PlatformStats, homePageView (.ok d) = { stats := d, errorShown := false }) ∧
    (∀ f : FetchResult PlatformStats, (homePageView f).errorShown = false) := by
  refine ⟨fun b => rfl, fun m => rfl, fun d => rfl, fun f => ?_⟩
  cases f <;> rfl

/-- Claim C10: on every non-OK response, searchDrugs and getDrugDetails raise
an Error and never propagate a JSON-parse exception; an unparsable body or a
body without a detail field yields the respective fixed fallback message. -/
theorem error_message_total_fallbacks :
    (∀ b : Option ParsedError,
      (∃ m : String, searchDrugsResult (.httpError b) = .error m) ∧
      (∃ m : String, getDrugDetails (.httpError b) = .error m)) ∧
    searchDrugsResult (.httpError none) = .error ("Search failed") ∧
    searchDrugsResult (.httpError (some { detail := none })) = .error ("Search failed") ∧
    getDrugDetails (.httpError none) = .error ("Drug not found") ∧
    getDrugDetails (.httpError (some { detail := none })) = .error ("Drug not found") := by
  refine ⟨fun b => ⟨⟨errorMessage b ("Search failed"), rfl⟩,
    ⟨errorMessage b ("Drug not found"), rfl⟩⟩, rfl, rfl, rfl, rfl⟩

/-- Claim C2: the results page always requests max_results equal to 20,
searchDrugs forwards the maxResults bound of the caller unchanged, and the
result list of a search response honouring the spec-modelled backend contract
never exceeds the requested maximum. -/
theorem search_results_length_le_max_results (q : Option String) (t : Option String)
    (params : SearchParams) (h : resultsPageSearch q t = some params) :
    params.maxResults = 20 ∧
    (∀ p : SearchParams, (buildSearchRequest p).max_results = p.maxResults) ∧
    (∀ (req : SearchRequest) (pool : List Drug),
      ((specSearch req pool).results).length ≤ req.max_results) ∧
    (∀ pool : List Drug,
      ((specSearch (buildSearchRequest params) pool).results).length ≤ params.maxResults) := by
  have hlen : ∀ (req : SearchRequest) (pool : List Drug),
      ((specSearch req pool).results).length ≤ req.max_results := by
    intro req pool
    simp only [specSearch, List.length_take]
    exact Nat.min_le_left _ _
  have h20 : params.maxResults = 20 := by
    by_cases hc : (jsTruthy q && jsTruthy t) = true
    · simp only [resultsPageSearch, hc, if_true, Option.some.injEq] at h
      rw [← h]
    · simp only [resultsPageSearch, hc, if_false] at h
      simp at h
  exact ⟨h20, fun p => rfl, hlen, fun pool => hlen (buildSearchRequest params) pool⟩

/-- Witness for claim C2, for the documented example search BRCA1 by gene. -/
theorem search_results_length_le_max_results_witness :
    resultsPageSearch (some ("BRCA1")) (some ("gene")) =
      some { query := ("BRCA1"), queryType := ("gene"), maxResults := 20 } ∧
    ({ query := ("BRCA1"), queryType := ("gene"), maxResults := 20 } : SearchParams).maxResults
        = 20 ∧
    (∀ p : SearchParams, (buildSearchRequest p).max_results = p.maxResults) ∧
    (∀ (req : SearchRequest) (pool : List Drug),
      ((specSearch req pool).results).length ≤ req.max_results) ∧
    (∀ pool : List Drug,
      ((specSearch (buildSearchRequest
          { query := ("BRCA1"), queryType := ("gene"), maxResults := 20 }) pool).results).length
        ≤ ({ query := ("BRCA1"), queryType := ("gene"), maxResults := 20 } : SearchParams).maxResults) :=
  ⟨rfl, search_results_length_le_max_results (some ("BRCA1")) (some ("gene")) _ rfl⟩

/-- Claim C3: the Lipinski rule panel of the detail modal marks the four
rules passed exactly at the stated thresholds, and for records whose
drug-likeness flag was computed by the spec-modelled Lipinski function, the
badge of the modal and the badge of the drug card both equal the conjunction
of the four threshold conditions. -/
theorem drug_likeness_matches_lipinski (d : DrugDetails) (c : Drug)
    (hd : d.is_drug_like = lipinskiDrugLike d.molecular_weight d.logp d.hbd d.hba)
    (hc : c.is_drug_like = lipinskiDrugLike c.molecular_weight c.logp c.hbd c.hba) :
    modalRulePanel d =
      ( decide (d.molecular_weight < 500), decide (d.logp < 5)
      , decide (d.hbd ≤ 5), decide (d.hba ≤ 10) ) ∧
    modalDrugLikeBadge d =
      ((modalRulePanel d).1 && (modalRulePanel d).2.1 &&
        (modalRulePanel d).2.2.1 && (modalRulePanel d).2.2.2) ∧
    (mkDrugCard c).showsDrugLikeBadge =
      (decide (c.molecular_weight < 500) && decide (c.logp < 5) &&
        decide (c.hbd ≤ 5) && decide (c.hba ≤ 10)) := by
  refine ⟨rfl, ?_, ?_⟩
  · simp [modalDrugLikeBadge, modalRulePanel, hd, lipinskiDrugLike]
  · simp [mkDrugCard, hc, lipinskiDrugLike]

/-- Witness for claim C3, at the Aspirin sample records. -/
theorem drug_likeness_matches_lipinski_witness :
    sampleDetails.is_drug_like =
      lipinskiDrugLike sampleDetails.molecular_weight sampleDetails.logp
        sampleDetails.hbd sampleDetails.hba ∧
    sampleDrug.is_drug_like =
      lipinskiDrugLike sampleDrug.molecular_weight sampleDrug.logp
        sampleDrug.hbd sampleDrug.hba ∧
    (modalRulePanel sampleDetails =
      ( decide (sampleDetails.molecular_weight < 500), decide (sampleDetails.logp < 5)
      , decide (sampleDetails.hbd ≤ 5), decide (sampleDetails.hba ≤ 10) ) ∧
    modalDrugLikeBadge sampleDetails =
      ((modalRulePanel sampleDetails).1 && (modalRulePanel sampleDetails).2.1 &&
        (modalRulePanel sampleDetails).2.2.1 && (modalRulePanel sampleDetails).2.2.2) ∧
    (mkDrugCard sampleDrug).showsDrugLikeBadge =
      (decide (sampleDrug.molecular_weight < 500) && decide (sampleDrug.logp < 5) &&
        decide (sampleDrug.hbd ≤ 5) && decide (sampleDrug.hba ≤ 10))) :=
  ⟨by decide, by decide, drug_likeness_matches_lipinski sampleDetails sampleDrug
    (by decide) (by decide)⟩

/-- Claim C5 counterexample: a non-OK detail response whose body carries a
present but empty detail field is mapped to the fallback message, not to the
value of the detail field, so the thrown message is not the detail field
whenever the latter is present. -/
theorem drug_details_empty_detail_counterexample :
    ({ detail := some ("") } : ParsedError).detail = some ("") ∧
    getDrugDetails (.httpError (some { detail := some ("") })) = .error ("Drug not found") ∧
    ("Drug not found") ≠ ("") := by
  refine ⟨rfl, rfl, by decide⟩

/-- Claim C5 (amended): on every non-OK detail response getDrugDetails never
returns a DrugDetails value; it raises an Error whose message is the detail
field of the body when that field is present and non-empty, and the fallback
Drug not found otherwise, and the detail modal catches the error and renders
the message with no details stored. -/
theorem drug_details_error_message_and_modal (body : Option ParsedError) (d : String)
    (hne : d ≠ ("")) :
    (∀ v : DrugDetails, getDrugDetails (.httpError body) ≠ .ok v) ∧
    getDrugDetails (.httpError body) = .error (errorMessage body ("Drug not found")) ∧
    getDrugDetails (.httpError (some { detail := some d })) = .error d ∧
    getDrugDetails (.httpError (some { detail := none })) = .error ("Drug not found") ∧
    getDrugDetails (.httpError none) = .error ("Drug not found") ∧
    (∀ msg : String, loadDrugDetails (.error msg) =
      { drug := none, errorShown := some msg, isLoading := false }) := by
  refine ⟨fun v hv => by simp [getDrugDetails] at hv, rfl, ?_, rfl, rfl, fun msg => rfl⟩
  simp [getDrugDetails, errorMessage, jsStringOrElse, hne]

/-- Witness for claim C5, at an unparsable body and the documented not-found
detail message. -/
theorem drug_details_error_message_and_modal_witness :
    ("Drug CHEMBL404 not found") ≠ ("") ∧
    ((∀ v : DrugDetails, getDrugDetails (.httpError none) ≠ .ok v) ∧
    getDrugDetails (.httpError none) = .error (errorMessage none ("Drug not found")) ∧
    getDrugDetails (.httpError (some { detail := some ("Drug CHEMBL404 not found") })) =
      .error ("Drug CHEMBL404 not found") ∧
    getDrugDetails (.httpError (some { detail := none })) = .error ("Drug not found") ∧
    getDrugDetails (.httpError none) = .error ("Drug not found") ∧
    (∀ msg : String, loadDrugDetails (.error msg) =
      { drug := none, errorShown := some msg, isLoading := false })) :=
  ⟨by decide, drug_details_error_message_and_modal none ("Drug CHEMBL404 not found") (by decide)⟩

/-- Claim C7 counterexample: the results page forwards the type URL parameter
into the search request without validation, so a hand-crafted URL produces a
request whose query_type lies outside the three-value enumeration. -/
theorem query_type_not_validated_counterexample :
    resultsPageRequest (some ("BRCA1")) (some ("banana")) =
      some { query := ("BRCA1"), query_type := ("banana"), max_results := 20 } ∧
    isValidQueryType ("banana") = false := by
  exact ⟨rfl, rfl⟩

/-- Claim C7 (amended): searches that originate in the SearchForm carry a
query_type from the three-value enumeration, because the tab values are
exactly those three strings and a non-empty submission navigates with the
selected tab value; the results page preserves a valid type taken from a URL
produced this way, but performs no validation of its own. -/
theorem search_form_query_type_in_enumeration (t : String) (ht : t ∈ searchFormTabValues) :
    isValidQueryType t = true ∧
    (∀ q : String, jsTrim q ≠ ("") → handleSubmit q t false = .navigate q t) ∧
    (∀ (q : String) (req : SearchRequest),
      resultsPageRequest (some q) (some t) = some req → isValidQueryType req.query_type = true) := by
  have hval : isValidQueryType t = true := by
    simp only [searchFormTabValues, List.mem_cons, List.not_mem_nil, or_false] at ht
    rcases ht with rfl | rfl | rfl <;> rfl
  refine ⟨hval, ?_, ?_⟩
  · intro q hq
    simp [handleSubmit, hq]
  · intro q req h
    by_cases hc : (jsTruthy (some q) && jsTruthy (some t)) = true
    · simp only [resultsPageRequest, resultsPageSearch, hc, if_true, Option.map_some',
        Option.some.injEq] at h
      rw [← h]
      exact hval
    · simp only [resultsPageRequest, resultsPageSearch, hc, if_false] at h
      simp at h

/-- Witness for claim C7, at the gene tab and the BRCA1 example query. -/
theorem search_form_query_type_in_enumeration_witness :
    ("gene") ∈ searchFormTabValues ∧
    (isValidQueryType ("gene") = true ∧
    (∀ q : String, jsTrim q ≠ ("") → handleSubmit q ("gene") false = .navigate q ("gene")) ∧
    (∀ (q : String) (req : SearchRequest),
      resultsPageRequest (some q) (some ("gene")) = some req →
        isValidQueryType req.query_type = true)) :=
  ⟨by decide, search_form_query_type_in_enumeration ("gene") (by decide)⟩

/-- Claim C1: the results page stores response.results unchanged and the
grid renders the drugs in the order received without re-sorting, so the
rendered card list of a response honouring the spec-modelled backend contract
has non-increasing binding scores at every adjacent pair. -/
theorem results_rendered_sorted_by_binding_score (req : SearchRequest) (pool : List Drug)
    (prev : List Drug) :
    (∀ resp : SearchResponse, (performSearch prev (.ok resp)).drugs = resp.results) ∧
    (∀ drugs : List Drug, drugGrid false drugs = drugs.map mkDrugCard) ∧
    List.Chain' (fun a b : DrugCardView => b.bindingScore ≤ a.bindingScore)
      (drugGrid false (performSearch prev (.ok (specSearch req pool))).drugs) := by
  refine ⟨fun resp => rfl, fun drugs => rfl, ?_⟩
  have hsorted : List.Sorted scoreDescOrder
      ((List.insertionSort scoreDescOrder pool).take req.max_results) :=
    List.Pairwise.sublist (List.take_sublist _ _) (List.sorted_insertionSort scoreDescOrder pool)
  have hchain : List.Chain' scoreDescOrder
      ((List.insertionSort scoreDescOrder pool).take req.max_results) :=
    List.Pairwise.chain' hsorted
  show List.Chain' _
    (((List.insertionSort scoreDescOrder pool).take req.max_results).map mkDrugCard)
  exact (List.chain'_map mkDrugCard).mpr hchain

/-- Claim C6 counterexample: two executions of the placeholder search on the
same request and candidate pool, differing only in the sampled randomness,
return different ranked lists. -/
theorem search_not_deterministic_counterexample :
    mockSearch { query := ("BRCA1"), query_type := ("gene"), max_results := 20 }
        [sampleDrug] 0 ≠
      mockSearch { query := ("BRCA1"), query_type := ("gene"), max_results := 20 }
        [sampleDrug] 1 := by
  decide

/-- Claim C6 (amended): the placeholder search is not a deterministic
function of the search input alone; for every request admitting at least one
result and every non-empty candidate pool, executions with different
randomness draws return different ranked lists, so a fixed ranking is only
determined by the input together with the sampled randomness. -/
theorem mock_search_depends_on_randomness (req : SearchRequest) (d : Drug)
    (rest : List Drug) (h : 1 ≤ req.max_results) :
    mockSearch req (d :: rest) 0 ≠ mockSearch req (d :: rest) 1 := by
  obtain ⟨n, hn⟩ : ∃ n, req.max_results = n + 1 :=
    ⟨req.max_results - 1, (Nat.succ_pred_eq_of_pos h).symm⟩
  intro hEq
  simp only [mockSearch, hn, List.enum, List.enumFrom, List.map_cons, List.take_succ_cons,
    List.cons.injEq] at hEq
  have hb := congrArg Drug.binding_score hEq.1
  simp only [mockBindingScore] at hb
  norm_num at hb

/-- Witness for claim C6, at a five-result request over a one-drug pool. -/
theorem mock_search_depends_on_randomness_witness :
    1 ≤ ({ query := ("TP53"), query_type := ("gene"), max_results := 5 }
        : SearchRequest).max_results ∧
    mockSearch { query := ("TP53"), query_type := ("gene"), max_results := 5 }
        [sampleDrug] 0 ≠
      mockSearch { query := ("TP53"), query_type := ("gene"), max_results := 5 }
        [sampleDrug] 1 :=
  ⟨by decide, mock_search_depends_on_randomness
    { query := ("TP53"), query_type := ("gene"), max_results := 5 } sampleDrug [] (by decide)⟩

end Bindora
